import Mathlib

/-!
# AptUPI — verification of the payment backend and UPI QR parser

Shallow embedding of the AptUPI repository's core logic:

* `backend/src/services/PaymentService.ts` — the `Payment` record and the
  ledger operations `getPaymentById`, `updatePaymentStatus`,
  `updatePaymentPayout`, and the `OracleService` exchange-rate cache.
* `backend/src/controllers/PaymentController.ts` — `confirmPayment`.
* `backend/src/controllers/UpiController.ts` — `initiateUpiPayout`,
  `handleUpiWebhook`.
* `backend/src/services/UpiService.ts` — `initiatePayout`,
  `verifyWebhookSignature`.
* `src/components/UPIQRScanner.tsx` — `parseUPIQRCode`, `parseUPIURL`,
  `parseAlternativeUPIFormat`.

Modelling conventions:
* TypeScript numbers carrying money or rates become `ℚ`.
* Timestamps (`Date.now()`, `new Date()`) become `Nat` milliseconds passed
  explicitly.
* `uuidv4()` is modelled as drawing the next value from an injective
  fresh-identifier generator: a `Nat` counter whose current value is the
  fresh id; distinct draws are distinct by construction, matching the
  collision-freedom assumption of v4 UUIDs.
* External HTTP calls (blockchain lookup, payout provider, rate APIs) are
  passed in as explicit outcome parameters (`Bool`, `Except`, `Option ℚ`);
  a thrown/failed call is the error/none case.
* A TypeScript function that can throw is modelled with `Option`/`Except`;
  JavaScript truthiness of a string (`''` and `null`/`undefined` are falsy)
  is modelled explicitly where the source relies on it.
-/

namespace AptUPI

/-- Is the first list a prefix of the second? -/
def isPrefixList : List Char → List Char → Bool
  | [], _ => true
  | _ :: _, [] => false
  | a :: as, b :: bs => a == b && isPrefixList as bs

/-- Split at every occurrence of the (nonempty) separator; `fuel` bounds
the recursion by the input length, making the recursion structural. -/
def splitOnFuel (sep : List Char) : Nat → List Char → List Char → List (List Char)
  | 0, _, acc => [acc.reverse]
  | _ + 1, [], acc => [acc.reverse]
  | fuel + 1, c :: rest, acc =>
    if isPrefixList sep (c :: rest) then
      acc.reverse :: splitOnFuel sep fuel ((c :: rest).drop sep.length) []
    else
      splitOnFuel sep fuel rest (c :: acc)

/-- JavaScript `s.split(sep)` for a nonempty separator (also the
behaviour of `String.splitOn`). -/
def splitOnStr (s sep : String) : List String :=
  (splitOnFuel sep.data (s.data.length + 1) s.data []).map String.mk

/-- Substring test, modelling JavaScript `String.prototype.includes`:
splitting on a nonempty pattern yields a singleton exactly when the
pattern does not occur. -/
def containsSub (s pat : String) : Bool :=
  (splitOnStr s pat).length != 1

/-- JavaScript `s.toLowerCase()` (ASCII). -/
def strToLower (s : String) : String :=
  String.mk (s.data.map Char.toLower)

/-- JavaScript `s.trim()`: strip leading and trailing whitespace. -/
def strTrim (s : String) : String :=
  String.mk (((s.data.dropWhile Char.isWhitespace).reverse.dropWhile
    Char.isWhitespace).reverse)

/-- JavaScript `s.includes(c)` for a single character. -/
def strContains (s : String) (c : Char) : Bool :=
  s.data.contains c

/-! ## Payment ledger — `PaymentService.ts` -/

/-- The persisted `Payment` row (`PaymentService.ts`, interface `Payment`).
`upiPayoutId` holds a generated payout identifier (see the UUID modelling
convention above). -/
structure Payment where
  id : String
  merchantId : String
  amountINR : ℚ
  stablecoinAmount : ℚ
  exchangeRate : ℚ
  walletAddress : String
  merchantUpiId : String
  status : String
  aptosTransactionHash : Option String
  upiPayoutId : Option Nat
  createdAt : Nat
  updatedAt : Nat
  deriving DecidableEq

/-- The `payments` table: a list of rows. -/
abbrev PaymentDb := List Payment

/-- `PaymentService.getPaymentById`: `SELECT * FROM payments WHERE id = $1`,
returning the first matching row or `null`. -/
def getPaymentById (db : PaymentDb) (id : String) : Option Payment :=
  db.find? (fun p => p.id == id)

/-- The row mutation performed by `PaymentService.updatePaymentStatus`:
sets `status` and `updated_at`; sets `aptos_transaction_hash` only when the
argument is truthy (present and nonempty), mirroring
`if (aptosTransactionHash) { ... }`. -/
def applyStatusUpdate (status : String) (hash : Option String) (now : Nat)
    (p : Payment) : Payment :=
  { p with
    status := status
    updatedAt := now
    aptosTransactionHash :=
      match hash with
      | some h => if h = "" then p.aptosTransactionHash else some h
      | none => p.aptosTransactionHash }

/-- `PaymentService.updatePaymentStatus`: updates every row with the given
id and returns the first updated row (`RETURNING *` / `result.rows[0]`).
When no row matches, `mapRowToPayment(undefined)` throws: modelled as
`none`. There is no guard on the current status. -/
def updatePaymentStatus (db : PaymentDb) (id status : String)
    (hash : Option String) (now : Nat) : Option (PaymentDb × Payment) :=
  match getPaymentById db id with
  | none => none
  | some p =>
    some (db.map (fun q => if q.id = id then applyStatusUpdate status hash now q else q),
      applyStatusUpdate status hash now p)

/-- `PaymentService.updatePaymentPayout`: sets `upi_payout_id` and
`updated_at` on every row with the given id; `none` when no row matches
(the source would throw in `mapRowToPayment`). -/
def updatePaymentPayout (db : PaymentDb) (id : String) (payoutId : Nat)
    (now : Nat) : Option (PaymentDb × Payment) :=
  match getPaymentById db id with
  | none => none
  | some p =>
    some (db.map (fun q => if q.id = id then { q with upiPayoutId := some payoutId, updatedAt := now } else q),
      { p with upiPayoutId := some payoutId, updatedAt := now })

/-! ## `PaymentController.confirmPayment` -/

/-- `PaymentController.confirmPayment`. Inputs: the request body fields
`transactionId` and `aptosTransactionHash`, and the outcome `isValid` of
the external `aptosService.verifyTransaction` call. Missing (falsy) body
fields are rejected first; an invalid chain transaction is rejected; then
the status is set to `'confirmed'` unconditionally via
`updatePaymentStatus` — there is no check of the payment's current status
and no payout-provider interaction anywhere in this handler. -/
def confirmPayment (transactionId aptosTransactionHash : String)
    (isValid : Bool) (db : PaymentDb) (now : Nat) :
    Except String (PaymentDb × Payment) :=
  if transactionId = "" ∨ aptosTransactionHash = "" then
    .error "Missing required fields"
  else if ¬ isValid then
    .error "Invalid transaction"
  else
    match updatePaymentStatus db transactionId "confirmed" (some aptosTransactionHash) now with
    | none => .error "Payment not found"
    | some (db', p) => .ok (db', p)

/-! ## `UpiController.handleUpiWebhook` -/

/-- `UpiService.verifyWebhookSignature`: compares the given signature with
the HMAC-SHA256 of the payload under the secret key. The HMAC itself is an
external primitive, abstracted as the function argument `hmac`. This
function exists in the source but is never called: the call site in
`handleUpiWebhook` is commented out. -/
def verifyWebhookSignature (hmac : String → String → String)
    (secretKey payload signature : String) : Bool :=
  signature == hmac secretKey payload

/-- `UpiController.handleUpiWebhook`. Takes the request body fields
`payoutId`, `status`, `transactionId` and the raw signature header
`signature`. The signature is NOT verified — the verification block is
commented out in the source — and `payoutId` is never used. The webhook
status is mapped to a payment status (`'SUCCESS' ↦ 'completed'`,
`'FAILED' ↦ 'failed'`, anything else `↦ 'pending'`) and written
unconditionally via `updatePaymentStatus`. -/
def handleUpiWebhook (payoutId status transactionId signature : String)
    (db : PaymentDb) (now : Nat) : Except String PaymentDb :=
  let _ := payoutId
  let _ := signature
  let paymentStatus :=
    if status = "SUCCESS" then "completed"
    else if status = "FAILED" then "failed"
    else "pending"
  match updatePaymentStatus db transactionId paymentStatus none now with
  | none => .error "Payment not found"
  | some (db', _) => .ok db'

/-! ## `UpiService.initiatePayout` and `UpiController.initiateUpiPayout` -/

/-- The request body of `UpiService.initiatePayout`
(`UpiService.ts`, interface `UpiPayoutRequest`). -/
structure UpiPayoutRequest where
  transactionId : String
  merchantUpiId : String
  amount : ℚ
  currency : String
  deriving DecidableEq

/-- The response of `UpiService.initiatePayout`
(`UpiService.ts`, interface `UpiPayoutResponse`). -/
structure UpiPayoutResponse where
  payoutId : Nat
  status : String
  message : String
  transactionId : Option String
  deriving DecidableEq

/-- The JSON body POSTed to the payout provider (`payoutData` in
`UpiService.initiatePayout`), restricted to the fields the claims talk
about. Recorded so theorems can speak about which provider calls were
made and which `payout_id` the provider was given. -/
structure ProviderCall where
  payout_id : Nat
  amount : ℚ
  currency : String
  upi_id : String
  deriving DecidableEq

/-- What a successful provider response carries
(`response.data` of the axios POST). -/
structure ProviderData where
  status : Option String
  transaction_id : Option String
  deriving DecidableEq

/-- JavaScript `x || d` where `x` is a string field that may be absent:
absent or empty falls back to `d`. -/
def jsOrOpt (x : Option String) (d : String) : String :=
  match x with
  | some s => if s = "" then d else s
  | none => d

/-- `UpiService.initiatePayout`, production path. `gen` is the UUID
generator state (its value is the next fresh id); `provider` is the
outcome of the axios POST, which received the body recorded in the
returned `ProviderCall` list. On provider failure, the catch block
returns a `'FAILED'` response whose `payoutId` is a SECOND fresh UUID —
not the `payout_id` that was sent to the provider. Returns
(response, new generator state, provider calls made). The
development-mode mock branch (`Math.random()`-driven) is outside this
deterministic embedding; this models the real-provider path. The function
itself never fails: every provider outcome yields a response. -/
def upiInitiatePayout (gen : Nat) (request : UpiPayoutRequest)
    (provider : Except String ProviderData) :
    UpiPayoutResponse × Nat × List ProviderCall :=
  let payoutId := gen
  let call : ProviderCall :=
    { payout_id := payoutId
      amount := request.amount
      currency := request.currency
      upi_id := request.merchantUpiId }
  match provider with
  | .ok data =>
    ({ payoutId := payoutId
       status := jsOrOpt data.status "PENDING"
       message := "Payout initiated successfully"
       transactionId := data.transaction_id }, gen + 1, [call])
  | .error _ =>
    ({ payoutId := gen + 1
       status := "FAILED"
       message := "Failed to initiate payout"
       transactionId := none }, gen + 2, [call])

/-- `UpiController.initiateUpiPayout`. Request body fields
`transactionId`, `merchantUpiId`, `amountINR` (falsy values — empty
strings, amount 0 — are rejected as missing); then the payment must exist
and be in status `'confirmed'`, otherwise the handler rejects BEFORE any
provider interaction. On the happy path it calls
`UpiService.initiatePayout` and persists the returned `payoutId` via
`updatePaymentPayout`. Returns (handler outcome, new UUID generator
state, provider calls made). -/
def initiateUpiPayout (db : PaymentDb) (transactionId merchantUpiId : String)
    (amountINR : ℚ) (gen : Nat) (provider : Except String ProviderData)
    (now : Nat) :
    Except String (PaymentDb × UpiPayoutResponse) × Nat × List ProviderCall :=
  if transactionId = "" ∨ merchantUpiId = "" ∨ amountINR = 0 then
    (.error "Missing required fields", gen, [])
  else
    match getPaymentById db transactionId with
    | none => (.error "Payment not found", gen, [])
    | some p =>
      if p.status ≠ "confirmed" then
        (.error "Payment not confirmed yet", gen, [])
      else
        let (payout, gen', calls) :=
          upiInitiatePayout gen
            { transactionId := transactionId
              merchantUpiId := merchantUpiId
              amount := amountINR
              currency := "INR" } provider
        match updatePaymentPayout db transactionId payout.payoutId now with
        | none => (.error "Payment not found", gen', calls)
        | some (db', _) => (.ok (db', payout), gen', calls)

/-! ## Exchange-rate oracle — `OracleService.ts`
(concatenated into `PaymentService.ts` in this source tree) -/

/-- One cache entry: `{ rate, timestamp }`. -/
structure RateEntry where
  rate : ℚ
  timestamp : Nat
  deriving DecidableEq

/-- The module-level `Map<string, { rate, timestamp }>` cache. -/
abbrev RateCache := List (String × RateEntry)

/-- `cacheTimeout = 60000` (one minute, in milliseconds). -/
def cacheTimeout : Nat := 60000

/-- `this.cache.get(key)`. -/
def cacheGet (c : RateCache) (k : String) : Option RateEntry :=
  (c.find? (fun e => e.1 == k)).map (fun e => e.2)

/-- `this.cache.set(key, entry)` — replaces any entry under the key. -/
def cacheSet (c : RateCache) (k : String) (e : RateEntry) : RateCache :=
  (k, e) :: c.filter (fun x => x.1 ≠ k)

/-- `OracleService.getFallbackUSDCToINRRate`: the secondary source
(exchangerate-api USD→INR). `secondary` is the fetched `rates.INR`
(`none` when the request threw or the field was absent). A falsy value
(absent or 0) triggers the final hardcoded fallback `84.0`. Never
throws. -/
def getFallbackUSDCToINRRate (secondary : Option ℚ) : ℚ :=
  match secondary with
  | some r => if r = 0 then 84 else r
  | none => 84

/-- `OracleService.getUSDCToINRRate`: the primary source (CoinGecko).
`primary` is the fetched `response.data['usd-coin']?.inr`. A falsy value
(absent or 0) falls through to `getFallbackUSDCToINRRate`; the catch
block does the same when the request threw. Never throws. -/
def getUSDCToINRRate (primary secondary : Option ℚ) : ℚ :=
  match primary with
  | some r => if r = 0 then getFallbackUSDCToINRRate secondary else r
  | none => getFallbackUSDCToINRRate secondary

/-- `OracleService.getExchangeRate`. Returns the rate and the updated
cache. A cached entry younger than `cacheTimeout` is returned as is.
Otherwise the supported pairs compute a rate via `getUSDCToINRRate`
(which never throws) and cache it with a fresh timestamp; an unsupported
pair throws inside the `try`, and the catch then serves the (possibly
expired) cached value if one exists, else a hardcoded constant. -/
def getExchangeRate (cache : RateCache) (fromCurrency toCurrency : String)
    (now : Nat) (primary secondary : Option ℚ) : ℚ × RateCache :=
  let cacheKey := fromCurrency ++ "-" ++ toCurrency
  let cached := cacheGet cache cacheKey
  match cached with
  | some c =>
    if now - c.timestamp < cacheTimeout then
      (c.rate, cache)
    else if fromCurrency = "USDC" ∧ toCurrency = "INR" then
      let rate := getUSDCToINRRate primary secondary
      (rate, cacheSet cache cacheKey { rate := rate, timestamp := now })
    else if fromCurrency = "INR" ∧ toCurrency = "USDC" then
      let usdcToInr := getUSDCToINRRate primary secondary
      let rate := 1 / usdcToInr
      (rate, cacheSet cache cacheKey { rate := rate, timestamp := now })
    else
      (c.rate, cache)
  | none =>
    if fromCurrency = "USDC" ∧ toCurrency = "INR" then
      let rate := getUSDCToINRRate primary secondary
      (rate, cacheSet cache cacheKey { rate := rate, timestamp := now })
    else if fromCurrency = "INR" ∧ toCurrency = "USDC" then
      let usdcToInr := getUSDCToINRRate primary secondary
      let rate := 1 / usdcToInr
      (rate, cacheSet cache cacheKey { rate := rate, timestamp := now })
    else
      (if fromCurrency = "USDC" ∧ toCurrency = "INR" then (84 : ℚ) else (0.012 : ℚ), cache)

/-! ## UPI QR parser — `src/components/UPIQRScanner.tsx` -/

/-- The parsed payment intent (`UPIQRScanner.tsx`, interface `UPIData`).
All optional fields are produced as strings (possibly `''`) by every code
path, so they are plain `String`s here. -/
structure UPIData where
  payeeAddress : String
  payeeName : String
  amount : String
  transactionNote : String
  merchantCode : String
  transactionRef : String
  rawData : String
  deriving DecidableEq

/-- Does the string contain a decimal digit (`line.match(/\d+/)`)? -/
def hasDigit (s : String) : Bool :=
  s.data.any Char.isDigit

/-- First match of the regex `/\d+(\.\d+)?/`: the first maximal digit run,
extended by `.` and a further digit run when one immediately follows. -/
def firstNumRun : List Char → Option String
  | [] => none
  | c :: rest =>
    if c.isDigit then
      let ds := (c :: rest).takeWhile Char.isDigit
      match (c :: rest).dropWhile Char.isDigit with
      | '.' :: r2 =>
        let fs := r2.takeWhile Char.isDigit
        if fs.isEmpty then some (String.mk ds)
        else some (String.mk (ds ++ '.' :: fs))
      | _ => some (String.mk ds)
    else firstNumRun rest

/-- One iteration of the `for (const line of lines)` loop in
`parseAlternativeUPIFormat`, acting on the accumulator
(payeeAddress, payeeName, amount). Branch order as in the source: a line
with `@` is the payee address; else a line mentioning `amount` or `rs`
(case-insensitively) supplies the amount when it contains a numeric run;
else a line of length > 3 without `@` and without digits becomes the
payee name. Later lines overwrite earlier ones in every branch. -/
def altLineStep (acc : String × String × String) (line : String) :
    String × String × String :=
  let (payeeAddress, payeeName, amount) := acc
  if strContains line '@' then
    (line, payeeName, amount)
  else if containsSub (strToLower line) "amount" || containsSub (strToLower line) "rs" then
    match firstNumRun line.data with
    | some a => (payeeAddress, payeeName, a)
    | none => acc
  else if decide (line.length > 3) && !strContains line '@' && !hasDigit line then
    (payeeAddress, line, amount)
  else acc

/-- `parseAlternativeUPIFormat` (`UPIQRScanner.tsx`): the bare-VPA
heuristic parser. Splits on newlines, trims each line, folds
`altLineStep` over the lines starting from
`('', 'Unknown Merchant', '')`, and fails when no line supplied a payee
address. -/
def parseAlternativeUPIFormat (s : String) : Option UPIData :=
  let lines := (splitOnStr s "\n").map strTrim
  let r := lines.foldl altLineStep ("", "Unknown Merchant", "")
  if r.1 = "" then none
  else some
    { payeeAddress := r.1
      payeeName := r.2.1
      amount := r.2.2
      transactionNote := ""
      merchantCode := ""
      transactionRef := ""
      rawData := s }

/-- A line that reaches (and satisfies) the payee-name branch of
`parseAlternativeUPIFormat`: no `@`, not captured by the amount branch
(no `amount`/`rs` keyword, case-insensitively), length > 3, no digit. -/
def nameLine (line : String) : Bool :=
  !strContains line '@' &&
  !(containsSub (strToLower line) "amount" || containsSub (strToLower line) "rs") &&
  (decide (line.length > 3) && !strContains line '@' && !hasDigit line)

/-- The LAST line satisfying `nameLine`, if any — the payee name the
heuristic parser's overwrite loop ends with. -/
def lastNameLine : List String → Option String
  | [] => none
  | l :: ls =>
    match lastNameLine ls with
    | some n => some n
    | none => if nameLine l then some l else none

/-- A sample persisted payment row in status `'confirmed'`, used as a
concrete input by witnesses and counterexamples. -/
def pay1 : Payment :=
  { id := "pay1"
    merchantId := "m1"
    amountINR := 100
    stablecoinAmount := 2
    exchangeRate := 50
    walletAddress := "0xwallet"
    merchantUpiId := "merchant@upi"
    status := "confirmed"
    aptosTransactionHash := some "0xabc"
    upiPayoutId := none
    createdAt := 0
    updatedAt := 0 }

/-- The bare-text payload of the spec's heuristic-parser example. -/
def c5input : String := "shop@paytm\nTea Shop\nAmount: Rs 20"

/-- A bare-text payload with several payee-name candidate lines:
`Ears Nose` is the first line of length > 3 without `@` or digits, but it
contains the substring `rs` and three name candidates follow. -/
def c5cex : String := "shop@paytm\nEars Nose\nTea Shop\nCoffee House"

/-! ## Helper lemmas -/

/-- Updating the rows matching an id with an id-preserving row function
commutes with `getPaymentById`. -/
theorem getPaymentById_map_ite (db : PaymentDb) (id : String)
    (f : Payment → Payment) (hf : ∀ q, (f q).id = q.id) (p : Payment)
    (h : getPaymentById db id = some p) :
    getPaymentById (db.map (fun q => if q.id = id then f q else q)) id =
      some (f p) := by
  induction db with
  | nil => simp [getPaymentById] at h
  | cons q l ih =>
    by_cases hq : q.id = id
    · have hq1 : (q.id == id) = true := beq_iff_eq.mpr hq
      have hfq : ((f q).id == id) = true := by rw [hf q]; exact hq1
      have hqp : q = p := by
        simp only [getPaymentById, List.find?_cons, hq1] at h
        exact Option.some.inj h
      subst hqp
      simp only [getPaymentById, List.map_cons, List.find?_cons, if_pos hq,
        hfq]
    · have hq1 : (q.id == id) = false := beq_eq_false_iff_ne.mpr hq
      simp only [getPaymentById, List.find?_cons, hq1] at h
      simp only [getPaymentById, List.map_cons, List.find?_cons, if_neg hq,
        hq1]
      exact ih h

/-- A found payment's id equals the id it was looked up by. -/
theorem getPaymentById_id (db : PaymentDb) (id : String) (p : Payment)
    (h : getPaymentById db id = some p) : p.id = id := by
  have := List.find?_some h
  exact eq_of_beq this

/-! ## Claim C1 -/

/-- C1: the claim states that a webhook without a valid HMAC signature is
discarded with no state transition. The code contradicts this (and its
own commented-out verification block): `handleUpiWebhook` applies the
status transition for EVERY signature value — here a payment in status
`'confirmed'` is moved to `'completed'` by a `SUCCESS` webhook no matter
what the signature header holds, since the handler never reads it. -/
theorem C1_webhook_transition_applied_for_any_signature (sig : String) :
    handleUpiWebhook "po1" "SUCCESS" "pay1" sig [pay1] 9 =
      .ok [{ pay1 with status := "completed", updatedAt := 9 }] ∧
    pay1.status = "confirmed" :=
  ⟨rfl, rfl⟩

/-! ## Claim C2 -/

/-- C2 counterexample: `'completed'` is not terminal and `'completed'` is
reachable directly from `'pending'`. A `FAILED` webhook moves a
`'completed'` payment to `'failed'`, and a `SUCCESS` webhook moves a
`'pending'` payment straight to `'completed'` — `updatePaymentStatus`
never inspects the current status. -/
theorem C2_counterexample :
    (handleUpiWebhook "po1" "FAILED" "pay1" "sig" [{ pay1 with status := "completed" }] 9 =
      .ok [{ pay1 with status := "failed", updatedAt := 9 }]) ∧
    (handleUpiWebhook "po2" "SUCCESS" "pay1" "sig" [{ pay1 with status := "pending" }] 9 =
      .ok [{ pay1 with status := "completed", updatedAt := 9 }]) ∧
    ("completed" : String) ≠ "failed" ∧ ("pending" : String) ≠ "confirmed" :=
  ⟨rfl, rfl, by decide, by decide⟩

/-- C2 amended: `updatePaymentStatus` (as invoked by `confirmPayment` and
`handleUpiWebhook`) overwrites the status of an existing payment with
exactly the requested value, regardless of the current status — no status
is terminal in the code, and a `SUCCESS` webhook sets `'completed'` even
from `'pending'`. -/
theorem C2_amended_update_overwrites_status (db : PaymentDb)
    (id st : String) (hash : Option String) (now : Nat) (p : Payment)
    (h : getPaymentById db id = some p) :
    updatePaymentStatus db id st hash now =
      some (db.map (fun q => if q.id = id then applyStatusUpdate st hash now q else q),
        applyStatusUpdate st hash now p) ∧
    (applyStatusUpdate st hash now p).status = st ∧
    getPaymentById
      (db.map (fun q => if q.id = id then applyStatusUpdate st hash now q else q)) id =
      some (applyStatusUpdate st hash now p) := by
  refine ⟨?_, rfl, ?_⟩
  · unfold updatePaymentStatus
    rw [h]
  · exact getPaymentById_map_ite db id (applyStatusUpdate st hash now)
      (fun q => rfl) p h

/-- C2 witness: the amended statement applied to a concrete one-row
ledger holding a `'completed'` payment hit by a `'failed'` update. -/
theorem C2_witness :
    updatePaymentStatus [{ pay1 with status := "completed" }] "pay1" "failed" none 9 =
      some ([{ pay1 with status := "completed" }].map
          (fun q => if q.id = "pay1" then applyStatusUpdate "failed" none 9 q else q),
        applyStatusUpdate "failed" none 9 { pay1 with status := "completed" }) ∧
    (applyStatusUpdate "failed" none 9 { pay1 with status := "completed" }).status = "failed" ∧
    getPaymentById
      ([{ pay1 with status := "completed" }].map
        (fun q => if q.id = "pay1" then applyStatusUpdate "failed" none 9 q else q)) "pay1" =
      some (applyStatusUpdate "failed" none 9 { pay1 with status := "completed" }) :=
  C2_amended_update_overwrites_status [{ pay1 with status := "completed" }]
    "pay1" "failed" none 9 { pay1 with status := "completed" } rfl

/-! ## Claim C3 -/

/-- C3 counterexample: re-submitting `confirmPayment` with the same
chain-transaction hash on a payment already in status `'completed'` is
NOT a no-op: the payment is transitioned back to `'confirmed'`. -/
theorem C3_counterexample :
    confirmPayment "pay1" "0xabc" true [{ pay1 with status := "completed" }] 7 =
      .ok ([{ pay1 with status := "confirmed", updatedAt := 7 }],
        { pay1 with status := "confirmed", updatedAt := 7 }) ∧
    ({ pay1 with status := "completed" } : Payment).status ≠ "confirmed" :=
  ⟨rfl, by decide⟩

/-- C3 amended: for a payment already in status `'confirmed'`,
re-submitting `confirmPayment` with the same chain-transaction hash
succeeds and leaves status, hash and payout id unchanged (only
`updatedAt` is rewritten), and triggers no payout — `confirmPayment`
contains no payout-provider interaction at all. But for a payment in
status `'completed'` the same call downgrades the status to
`'confirmed'` (see the counterexample): idempotent no-op behaviour holds
only for the `'confirmed'` case. -/
theorem C3_amended_reconfirm_confirmed_noop (db : PaymentDb)
    (tid hash : String) (now : Nat) (p : Payment)
    (hp : getPaymentById db tid = some p) (hst : p.status = "confirmed")
    (hh : p.aptosTransactionHash = some hash) (hne : hash ≠ "")
    (htid : tid ≠ "") :
    confirmPayment tid hash true db now =
      .ok (db.map (fun q => if q.id = tid then applyStatusUpdate "confirmed" (some hash) now q else q),
        applyStatusUpdate "confirmed" (some hash) now p) ∧
    (applyStatusUpdate "confirmed" (some hash) now p).status = p.status ∧
    (applyStatusUpdate "confirmed" (some hash) now p).aptosTransactionHash =
      p.aptosTransactionHash ∧
    (applyStatusUpdate "confirmed" (some hash) now p).upiPayoutId = p.upiPayoutId := by
  refine ⟨?_, by rw [hst]; rfl, ?_, rfl⟩
  · unfold confirmPayment
    rw [if_neg (by push_neg; exact ⟨htid, hne⟩)]
    simp [updatePaymentStatus, hp]
  · unfold applyStatusUpdate
    simp only [if_neg hne]
    exact hh.symm

/-- C3 witness: the amended statement applied to a one-row ledger holding
`pay1`, which is in status `'confirmed'` with hash `0xabc`. -/
theorem C3_witness :
    confirmPayment "pay1" "0xabc" true [pay1] 7 =
      .ok ([pay1].map (fun q => if q.id = "pay1" then applyStatusUpdate "confirmed" (some "0xabc") 7 q else q),
        applyStatusUpdate "confirmed" (some "0xabc") 7 pay1) ∧
    (applyStatusUpdate "confirmed" (some "0xabc") 7 pay1).status = pay1.status ∧
    (applyStatusUpdate "confirmed" (some "0xabc") 7 pay1).aptosTransactionHash =
      pay1.aptosTransactionHash ∧
    (applyStatusUpdate "confirmed" (some "0xabc") 7 pay1).upiPayoutId = pay1.upiPayoutId :=
  C3_amended_reconfirm_confirmed_noop [pay1] "pay1" "0xabc" 7 pay1 rfl rfl rfl
    (by decide) (by decide)

/-! ## Claim C4 -/

/-- The payee-name component of one heuristic-parser loop iteration: a
line sets the name exactly when it satisfies `nameLine`. -/
theorem altLineStep_name (acc : String × String × String) (line : String) :
    (altLineStep acc line).2.1 = if nameLine line then line else acc.2.1 := by
  obtain ⟨addr, name, amt⟩ := acc
  unfold altLineStep nameLine
  by_cases h1 : strContains line '@'
  · simp [h1]
  · by_cases h2 : (containsSub (strToLower line) "amount" || containsSub (strToLower line) "rs") = true
    · cases firstNumRun line.data <;> simp [h1, h2]
    · simp only [h1, h2, Bool.false_eq_true, if_false, Bool.not_false,
        Bool.true_and, Bool.and_true]
      split <;> rfl

/-- The heuristic parser's payee-name accumulator ends at the LAST
qualifying line, or at its initial value when no line qualifies. -/
theorem foldl_altLineStep_name (lines : List String)
    (acc : String × String × String) :
    (lines.foldl altLineStep acc).2.1 =
      (lastNameLine lines).getD acc.2.1 := by
  induction lines generalizing acc with
  | nil => rfl
  | cons l ls ih =>
    rw [List.foldl_cons, ih, lastNameLine]
    cases hls : lastNameLine ls with
    | some n => rfl
    | none =>
      rw [altLineStep_name]
      by_cases h : nameLine l <;> simp [h]

/-- C5 amended: in the bare-VPA heuristic parser the payee name is the
LAST line that reaches and satisfies the name branch — length > 3, no
`@`, no digit, and not containing `amount` or `rs` case-insensitively
(such lines are consumed by the amount branch) — defaulting to
"Unknown Merchant" when no such line exists; the input
`"shop@paytm\nTea Shop\nAmount: Rs 20"` still yields
`payeeAddress = "shop@paytm"`, `payeeName = "Tea Shop"`,
`amount = "20"`. -/
theorem C5_amended_last_name_line_wins :
    (∀ s d, parseAlternativeUPIFormat s = some d →
      d.payeeName =
        (lastNameLine ((splitOnStr s "\n").map strTrim)).getD "Unknown Merchant") ∧
    parseAlternativeUPIFormat c5input = some
      { payeeAddress := "shop@paytm", payeeName := "Tea Shop",
        amount := "20", transactionNote := "", merchantCode := "",
        transactionRef := "", rawData := c5input } := by
  constructor
  · intro s d hd
    unfold parseAlternativeUPIFormat at hd
    by_cases ha : (((splitOnStr s "\n").map strTrim).foldl altLineStep
        ("", "Unknown Merchant", "")).1 = ""
    · rw [if_pos ha] at hd
      cases hd
    · rw [if_neg ha] at hd
      rw [← Option.some.inj hd]
      exact foldl_altLineStep_name _ _
  · decide

/-- C5 witness: the general component of the amended statement applied
to the counterexample input, whose last qualifying line is
`Coffee House`. -/
theorem C5_witness :
    ({ payeeAddress := "shop@paytm", payeeName := "Coffee House",
       amount := "", transactionNote := "", merchantCode := "",
       transactionRef := "", rawData := c5cex } : UPIData).payeeName =
      (lastNameLine ((splitOnStr c5cex "\n").map strTrim)).getD "Unknown Merchant" :=
  C5_amended_last_name_line_wins.1 c5cex
    { payeeAddress := "shop@paytm", payeeName := "Coffee House",
      amount := "", transactionNote := "", merchantCode := "",
      transactionRef := "", rawData := c5cex } (by decide)

/-- C5 counterexample: on
`"shop@paytm\nEars Nose\nTea Shop\nCoffee House"` the claim's rule —
FIRST line of length > 3 with no `@` and no digit — predicts
`payeeName = "Ears Nose"`; the code instead yields `"Coffee House"`:
`Ears Nose` is diverted to the amount branch (it contains `rs`), and
among the remaining candidates the LAST one wins, not the first. -/
theorem C5_counterexample :
    parseAlternativeUPIFormat c5cex = some
      { payeeAddress := "shop@paytm", payeeName := "Coffee House",
        amount := "", transactionNote := "", merchantCode := "",
        transactionRef := "", rawData := c5cex } ∧
    ("Coffee House" : String) ≠ "Ears Nose" ∧
    ("Coffee House" : String) ≠ "Tea Shop" :=
  ⟨by decide, by decide, by decide⟩

/-! ## Claim C6 -/

/-- C6: `initiateUpiPayout` succeeds only for an existing payment in
status exactly `'confirmed'`; for a missing payment or any other status
it returns an error and the provider-call list is empty — no payout
provider call is made. -/
theorem C6_payout_only_when_confirmed (db : PaymentDb)
    (transactionId merchantUpiId : String) (amountINR : ℚ) (gen : Nat)
    (provider : Except String ProviderData) (now : Nat) :
    (∀ db' r,
      (initiateUpiPayout db transactionId merchantUpiId amountINR gen provider now).1 =
        .ok (db', r) →
      ∃ p, getPaymentById db transactionId = some p ∧ p.status = "confirmed") ∧
    (getPaymentById db transactionId = none →
      (∃ e, (initiateUpiPayout db transactionId merchantUpiId amountINR gen provider now).1 =
        .error e) ∧
      (initiateUpiPayout db transactionId merchantUpiId amountINR gen provider now).2.2 = []) ∧
    (∀ p, getPaymentById db transactionId = some p → p.status ≠ "confirmed" →
      (∃ e, (initiateUpiPayout db transactionId merchantUpiId amountINR gen provider now).1 =
        .error e) ∧
      (initiateUpiPayout db transactionId merchantUpiId amountINR gen provider now).2.2 = []) := by
  by_cases hm : transactionId = "" ∨ merchantUpiId = "" ∨ amountINR = 0
  · refine ⟨?_, ?_, ?_⟩
    · intro db' r h
      simp [initiateUpiPayout, hm] at h
    · intro _
      exact ⟨⟨"Missing required fields", by simp [initiateUpiPayout, hm]⟩,
        by simp [initiateUpiPayout, hm]⟩
    · intro p _ _
      exact ⟨⟨"Missing required fields", by simp [initiateUpiPayout, hm]⟩,
        by simp [initiateUpiPayout, hm]⟩
  · cases hp : getPaymentById db transactionId with
    | none =>
      refine ⟨?_, ?_, ?_⟩
      · intro db' r h
        simp [initiateUpiPayout, hm, hp] at h
      · intro _
        exact ⟨⟨"Payment not found", by simp [initiateUpiPayout, hm, hp]⟩,
          by simp [initiateUpiPayout, hm, hp]⟩
      · intro p hp2 _
        exact Option.noConfusion hp2
    | some p =>
      by_cases hs : p.status = "confirmed"
      · refine ⟨?_, ?_, ?_⟩
        · intro db' r _
          exact ⟨p, rfl, hs⟩
        · intro hn
          exact Option.noConfusion hn
        · intro q hq hqs
          rw [← Option.some.inj hq] at hqs
          exact absurd hs hqs
      · refine ⟨?_, ?_, ?_⟩
        · intro db' r h
          simp [initiateUpiPayout, hm, hp, hs] at h
        · intro hn
          exact Option.noConfusion hn
        · intro q _ _
          exact ⟨⟨"Payment not confirmed yet", by simp [initiateUpiPayout, hm, hp, hs]⟩,
            by simp [initiateUpiPayout, hm, hp, hs]⟩

/-- C6 witness: a payment still in status `'pending'` is rejected with no
provider call; the ledger holds the row, so the third conjunct applies. -/
theorem C6_witness :
    (∃ e,
      (initiateUpiPayout [{ pay1 with status := "pending" }] "pay1" "merchant@upi" 100 5
        (.error "down") 9).1 = .error e) ∧
    (initiateUpiPayout [{ pay1 with status := "pending" }] "pay1" "merchant@upi" 100 5
      (.error "down") 9).2.2 = [] :=
  (C6_payout_only_when_confirmed [{ pay1 with status := "pending" }] "pay1"
    "merchant@upi" 100 5 (.error "down") 9).2.2
    { pay1 with status := "pending" } rfl (by decide)

/-! ## Claim C8 -/

/-- C8: a webhook whose status is neither `SUCCESS` nor `FAILED` maps to
payment status `'pending'`, which `updatePaymentStatus` writes over
whatever status the payment currently has. -/
theorem C8_unknown_webhook_status_sets_pending
    (payoutId status transactionId signature : String) (db : PaymentDb)
    (now : Nat) (p : Payment) (h1 : status ≠ "SUCCESS")
    (h2 : status ≠ "FAILED") (hp : getPaymentById db transactionId = some p) :
    handleUpiWebhook payoutId status transactionId signature db now =
      .ok (db.map (fun q =>
        if q.id = transactionId then applyStatusUpdate "pending" none now q else q)) ∧
    getPaymentById (db.map (fun q =>
        if q.id = transactionId then applyStatusUpdate "pending" none now q else q))
      transactionId = some (applyStatusUpdate "pending" none now p) ∧
    (applyStatusUpdate "pending" none now p).status = "pending" := by
  refine ⟨?_, getPaymentById_map_ite db transactionId
    (applyStatusUpdate "pending" none now) (fun q => rfl) p hp, rfl⟩
  unfold handleUpiWebhook
  rw [if_neg h1, if_neg h2]
  simp [updatePaymentStatus, hp]

/-- C8 witness: a `REFUNDED` webhook against a payment in status
`'completed'` resets it to `'pending'`. -/
theorem C8_witness :
    handleUpiWebhook "po9" "REFUNDED" "pay1" "sig" [{ pay1 with status := "completed" }] 11 =
      .ok ([{ pay1 with status := "completed" }].map (fun q =>
        if q.id = "pay1" then applyStatusUpdate "pending" none 11 q else q)) ∧
    getPaymentById ([{ pay1 with status := "completed" }].map (fun q =>
        if q.id = "pay1" then applyStatusUpdate "pending" none 11 q else q)) "pay1" =
      some (applyStatusUpdate "pending" none 11 { pay1 with status := "completed" }) ∧
    (applyStatusUpdate "pending" none 11 { pay1 with status := "completed" }).status =
      "pending" :=
  C8_unknown_webhook_status_sets_pending "po9" "REFUNDED" "pay1" "sig"
    [{ pay1 with status := "completed" }] 11 { pay1 with status := "completed" }
    (by decide) (by decide) rfl

/-! ## Claim C9 -/

/-- C9: when the provider call fails, `UpiService.initiatePayout` does
not throw: the controller still succeeds, the provider was called with
`payout_id = gen`, and the returned `'FAILED'` response carries the
SECOND fresh id `gen + 1` — an id the provider never saw — which the
controller persists on the payment. -/
theorem C9_provider_failure_persists_fresh_id (db : PaymentDb)
    (transactionId merchantUpiId err : String) (amountINR : ℚ)
    (gen now : Nat) (p : Payment)
    (hp : getPaymentById db transactionId = some p)
    (hst : p.status = "confirmed") (htid : transactionId ≠ "")
    (hupi : merchantUpiId ≠ "") (hamt : amountINR ≠ 0) :
    initiateUpiPayout db transactionId merchantUpiId amountINR gen (.error err) now =
      (.ok (db.map (fun q => if q.id = transactionId then
          { q with upiPayoutId := some (gen + 1), updatedAt := now } else q),
        { payoutId := gen + 1, status := "FAILED",
          message := "Failed to initiate payout", transactionId := none }),
        gen + 2,
        [{ payout_id := gen, amount := amountINR, currency := "INR",
           upi_id := merchantUpiId }]) ∧
    gen + 1 ≠ gen ∧
    getPaymentById (db.map (fun q => if q.id = transactionId then
        { q with upiPayoutId := some (gen + 1), updatedAt := now } else q))
      transactionId = some { p with upiPayoutId := some (gen + 1), updatedAt := now } := by
  refine ⟨?_, by omega, getPaymentById_map_ite db transactionId
    (fun q => { q with upiPayoutId := some (gen + 1), updatedAt := now })
    (fun q => rfl) p hp⟩
  unfold initiateUpiPayout
  rw [if_neg (by push_neg; exact ⟨htid, hupi, hamt⟩)]
  rw [hp]
  simp [hst, upiInitiatePayout, updatePaymentPayout, hp]

/-- C9 witness: applied to a one-row ledger holding the confirmed
payment `pay1` with a failing provider. -/
theorem C9_witness :
    initiateUpiPayout [pay1] "pay1" "merchant@upi" 100 5 (.error "down") 9 =
      (.ok ([pay1].map (fun q => if q.id = "pay1" then
          { q with upiPayoutId := some (5 + 1), updatedAt := 9 } else q),
        { payoutId := 5 + 1, status := "FAILED",
          message := "Failed to initiate payout", transactionId := none }),
        5 + 2,
        [{ payout_id := 5, amount := 100, currency := "INR",
           upi_id := "merchant@upi" }]) ∧
    5 + 1 ≠ 5 ∧
    getPaymentById ([pay1].map (fun q => if q.id = "pay1" then
        { q with upiPayoutId := some (5 + 1), updatedAt := 9 } else q)) "pay1" =
      some { pay1 with upiPayoutId := some (5 + 1), updatedAt := 9 } :=
  C9_provider_failure_persists_fresh_id [pay1] "pay1" "merchant@upi" "down"
    100 5 9 pay1 rfl rfl (by decide) (by decide) (by decide)

/-! ## Claims C7 and C10: shared oracle lemmas -/

/-- Reading back the key just written. -/
theorem cacheGet_set_self (c : RateCache) (k : String) (e : RateEntry) :
    cacheGet (cacheSet c k e) k = some e := by
  simp [cacheGet, cacheSet, List.find?_cons]

/-- On a cache miss or an expired entry, the USDC→INR path of
`getExchangeRate` computes its rate with `getUSDCToINRRate` — which
never throws — and caches it with the current timestamp; the stale cache
entry, if any, plays no part. -/
theorem getExchangeRate_usdc_inr_fetch (cache : RateCache) (now : Nat)
    (primary secondary : Option ℚ)
    (h : cacheGet cache "USDC-INR" = none ∨
      ∃ c, cacheGet cache "USDC-INR" = some c ∧ cacheTimeout ≤ now - c.timestamp) :
    getExchangeRate cache "USDC" "INR" now primary secondary =
      (getUSDCToINRRate primary secondary,
        cacheSet cache "USDC-INR"
          { rate := getUSDCToINRRate primary secondary, timestamp := now }) := by
  have hkey : ("USDC" ++ "-" ++ "INR" : String) = "USDC-INR" := rfl
  simp only [getExchangeRate, hkey]
  rcases h with h | ⟨c, hc, hexp⟩
  · rw [h]
    simp
  · rw [hc]
    have hfr : ¬ (now - c.timestamp < cacheTimeout) := by omega
    simp [hfr]

/-! ## Claim C7 -/

/-- C7 counterexample: with an EXPIRED cached value 80 for USDC→INR and
both rate sources failing, `getExchangeRate` returns the hardcoded 84 —
not the last-known cached value 80 the claim promises — because
`getUSDCToINRRate` absorbs the double failure and returns the constant
instead of throwing, so the stale-cache tier is never consulted. -/
theorem C7_counterexample :
    getExchangeRate [("USDC-INR", { rate := 80, timestamp := 0 })]
      "USDC" "INR" 60000 none none =
      (84, [("USDC-INR", { rate := 84, timestamp := 60000 })]) ∧
    (84 : ℚ) ≠ 80 :=
  ⟨by decide, by decide⟩

/-- C7 amended: `getExchangeRate` is total (never raises), and on a cache
miss or expiry with both the primary and the secondary source failing it
returns the hardcoded fallback constant (84.0 for USDC→INR) whether or
not an expired cached value exists: the double failure is absorbed inside
`getUSDCToINRRate`/`getFallbackUSDCToINRRate`, so the stale-cache tier of
`getExchangeRate`'s catch block is reached only for unsupported currency
pairs. -/
theorem C7_amended_double_failure_yields_constant (cache : RateCache)
    (now : Nat)
    (h : cacheGet cache "USDC-INR" = none ∨
      ∃ c, cacheGet cache "USDC-INR" = some c ∧ cacheTimeout ≤ now - c.timestamp) :
    (getExchangeRate cache "USDC" "INR" now none none).1 = 84 := by
  rw [getExchangeRate_usdc_inr_fetch cache now none none h]
  rfl

/-- C7 witness: the amended statement at the expired-cache input. -/
theorem C7_witness :
    (getExchangeRate [("USDC-INR", { rate := 80, timestamp := 0 })]
      "USDC" "INR" 60000 none none).1 = 84 :=
  C7_amended_double_failure_yields_constant
    [("USDC-INR", { rate := 80, timestamp := 0 })] 60000
    (.inr ⟨{ rate := 80, timestamp := 0 }, by decide, by decide⟩)

/-! ## Claim C10 -/

/-- C10: whenever the fetch path runs (cache miss or expiry) — including
when the computed value is only the hardcoded fallback — the value is
written to the cache under the pair's key with the current timestamp, and
every call in the next `cacheTimeout` milliseconds is served from the
cache: the same rate is returned, the cache is left untouched, and the
rate sources are not consulted (the result is independent of them). -/
theorem C10_fetched_rate_cached_and_served (cache : RateCache) (now : Nat)
    (primary secondary : Option ℚ) (r : ℚ) (cache' : RateCache)
    (h : cacheGet cache "USDC-INR" = none ∨
      ∃ c, cacheGet cache "USDC-INR" = some c ∧ cacheTimeout ≤ now - c.timestamp)
    (hr : getExchangeRate cache "USDC" "INR" now primary secondary = (r, cache')) :
    cacheGet cache' "USDC-INR" = some { rate := r, timestamp := now } ∧
    ∀ now' p' s', now' - now < cacheTimeout →
      getExchangeRate cache' "USDC" "INR" now' p' s' = (r, cache') := by
  rw [getExchangeRate_usdc_inr_fetch cache now primary secondary h] at hr
  have hr1 : getUSDCToINRRate primary secondary = r := congrArg Prod.fst hr
  have hc1 : cacheSet cache "USDC-INR"
      { rate := getUSDCToINRRate primary secondary, timestamp := now } = cache' :=
    congrArg Prod.snd hr
  rw [hr1] at hc1
  subst hc1
  refine ⟨cacheGet_set_self cache "USDC-INR" { rate := r, timestamp := now }, ?_⟩
  intro now' p' s' hlt
  have hkey : ("USDC" ++ "-" ++ "INR" : String) = "USDC-INR" := rfl
  simp only [getExchangeRate, hkey, cacheGet_set_self]
  rw [if_pos hlt]

/-- C10 witness: on an empty cache with both sources failing, the
fallback 84 is cached at time 5 and a later call at time 6 with a live
primary source is still served the cached 84 unchanged. -/
theorem C10_witness :
    cacheGet (getExchangeRate [] "USDC" "INR" 5 none none).2 "USDC-INR" =
      some { rate := 84, timestamp := 5 } ∧
    getExchangeRate (getExchangeRate [] "USDC" "INR" 5 none none).2
      "USDC" "INR" 6 (some 99) none =
      (84, (getExchangeRate [] "USDC" "INR" 5 none none).2) :=
  ⟨(C10_fetched_rate_cached_and_served [] 5 none none 84
      [("USDC-INR", { rate := 84, timestamp := 5 })] (.inl rfl) (by decide)).1,
    (C10_fetched_rate_cached_and_served [] 5 none none 84
      [("USDC-INR", { rate := 84, timestamp := 5 })] (.inl rfl) (by decide)).2
      6 (some 99) none (by decide)⟩

end AptUPI
